import Mathlib

/-!
Shallow embedding of the `minidrone` package of hybridgroup/tinygo-minidrone
(file `minidrone.go`, given as src/unnamed/part_002).  Bytes are modelled as
`Nat` values below 256, byte slices as `List Nat`, Go `int` as `Int`, and the
`uint16` sequence counters as `Nat` reduced modulo 2^16 on increment.  The
`float32` field `Psi` is carried by its IEEE-754 bit pattern (`PsiBits`): the
driver never performs arithmetic on `Psi`; it only stores the constant 0 and
serializes the value through `math.Float32bits`, both of which act on the bit
pattern directly.
-/

/-- Go conversion `byte(x)` of a signed integer: the low 8 bits. -/
def toByte (i : Int) : Nat := (i % 256).toNat

/-- Increment of a Go `uint16` counter (`m.stepsfa0a++` / `m.stepsfa0b++`). -/
def inc16 (n : Nat) : Nat := (n + 1) % 65536

/-- `Pcmd` is the Parrot Command structure for flight control
(src/unnamed/part_002 lines 110-117).  `PsiBits` is the IEEE-754 bit
pattern of the `float32` field `Psi`. -/
structure Pcmd where
  Flag : Int
  Roll : Int
  Pitch : Int
  Yaw : Int
  Gaz : Int
  PsiBits : Nat
deriving DecidableEq

/-- The zero Parrot command, as written literally in `NewMinidrone` and
`Hover`. -/
def Pcmd.zero : Pcmd :=
  { Flag := 0, Roll := 0, Pitch := 0, Yaw := 0, Gaz := 0, PsiBits := 0 }

/-- The driver state of the Go struct `Minidrone`: the two per-channel
sequence counters, the `Flying` boolean, the desired-motion vector, the
19-byte piloting-command buffer `pcmddata`, the 255-byte read buffer `buf`,
and whether a piloting-state handler has been registered
(`pilotingStateHandler != nil`). -/
structure Minidrone where
  stepsfa0a : Nat
  stepsfa0b : Nat
  Flying : Bool
  Pcmd : Pcmd
  pcmddata : List Nat
  buf : List Nat
  hasHandler : Bool
deriving DecidableEq

/-- `NewMinidrone` (src/unnamed/part_002 lines 119-136): zero motion vector,
`pcmddata := make([]byte, 19)`, `buf := make([]byte, 255)`; the counters and
`Flying` take Go's zero values. -/
def NewMinidrone : Minidrone :=
  { stepsfa0a := 0, stepsfa0b := 0, Flying := false,
    Pcmd := Pcmd.zero,
    pcmddata := List.replicate 19 0,
    buf := List.replicate 255 0,
    hasHandler := false }

/-- `GenerateAllStates`: increments `stepsfa0b` and emits the settings/date
frame; the ten bytes 0x32 … 0x38 are the UTF-8 text "2014-10-28". -/
def Minidrone.GenerateAllStates (m : Minidrone) : Minidrone × List Nat :=
  let b := inc16 m.stepsfa0b
  ({ m with stepsfa0b := b },
   [0x04, b % 256, 0x00, 0x04, 0x01, 0x00,
    0x32, 0x30, 0x31, 0x34, 0x2D, 0x31, 0x30, 0x2D, 0x32, 0x38, 0x00])

/-- `TakeOff`: increments `stepsfa0b` and emits the takeoff frame. -/
def Minidrone.TakeOff (m : Minidrone) : Minidrone × List Nat :=
  let b := inc16 m.stepsfa0b
  ({ m with stepsfa0b := b }, [0x02, b % 256, 0x02, 0x00, 0x01, 0x00])

/-- `Land`: increments `stepsfa0b` and emits the land frame. -/
def Minidrone.Land (m : Minidrone) : Minidrone × List Nat :=
  let b := inc16 m.stepsfa0b
  ({ m with stepsfa0b := b }, [0x02, b % 256, 0x02, 0x00, 0x03, 0x00])

/-- `FlatTrim`: increments `stepsfa0b` and emits the flat-trim frame. -/
def Minidrone.FlatTrim (m : Minidrone) : Minidrone × List Nat :=
  let b := inc16 m.stepsfa0b
  ({ m with stepsfa0b := b }, [0x02, b % 256, 0x02, 0x00, 0x00, 0x00])

/-- `Emergency`: increments `stepsfa0b` and emits the emergency frame. -/
def Minidrone.Emergency (m : Minidrone) : Minidrone × List Nat :=
  let b := inc16 m.stepsfa0b
  ({ m with stepsfa0b := b }, [0x02, b % 256, 0x02, 0x00, 0x04, 0x00])

/-- `generateAnimation`: increments `stepsfa0b` and builds the animation
frame for animation id `anim`. -/
def Minidrone.generateAnimation (m : Minidrone) (anim : Int) :
    Minidrone × List Nat :=
  let b := inc16 m.stepsfa0b
  ({ m with stepsfa0b := b },
   [0x02, b % 256, 0x02, 0x04, 0x00, 0x00, toByte anim, 0x00, 0x00, 0x00])

/-- `FrontFlip` sends `generateAnimation(0)`. -/
def Minidrone.FrontFlip (m : Minidrone) : Minidrone × List Nat :=
  m.generateAnimation 0

/-- `BackFlip` sends `generateAnimation(1)`. -/
def Minidrone.BackFlip (m : Minidrone) : Minidrone × List Nat :=
  m.generateAnimation 1

/-- `RightFlip` sends `generateAnimation(2)`. -/
def Minidrone.RightFlip (m : Minidrone) : Minidrone × List Nat :=
  m.generateAnimation 2

/-- `LeftFlip` sends `generateAnimation(3)`. -/
def Minidrone.LeftFlip (m : Minidrone) : Minidrone × List Nat :=
  m.generateAnimation 3

/-- `validatePitch` (src/unnamed/part_002 lines 580-588): clamps an `int`
into [0,100]. -/
def validatePitch (val : Int) : Int :=
  if val > 100 then 100 else if val < 0 then 0 else val

/-- `Up`: sets `Flag = 1` and `Gaz = validatePitch(val)`. -/
def Minidrone.Up (m : Minidrone) (val : Int) : Minidrone :=
  { m with Pcmd := { m.Pcmd with Flag := 1, Gaz := validatePitch val } }

/-- `Down`: sets `Flag = 1` and `Gaz = validatePitch(val) * -1`. -/
def Minidrone.Down (m : Minidrone) (val : Int) : Minidrone :=
  { m with Pcmd := { m.Pcmd with Flag := 1, Gaz := validatePitch val * (-1) } }

/-- `Forward`: sets `Flag = 1` and `Pitch = validatePitch(val)`. -/
def Minidrone.Forward (m : Minidrone) (val : Int) : Minidrone :=
  { m with Pcmd := { m.Pcmd with Flag := 1, Pitch := validatePitch val } }

/-- `Backward`: sets `Flag = 1` and `Pitch = validatePitch(val) * -1`. -/
def Minidrone.Backward (m : Minidrone) (val : Int) : Minidrone :=
  { m with Pcmd := { m.Pcmd with Flag := 1, Pitch := validatePitch val * (-1) } }

/-- `Right`: sets `Flag = 1` and `Roll = validatePitch(val)`. -/
def Minidrone.Right (m : Minidrone) (val : Int) : Minidrone :=
  { m with Pcmd := { m.Pcmd with Flag := 1, Roll := validatePitch val } }

/-- `Left`: sets `Flag = 1` and `Roll = validatePitch(val) * -1`. -/
def Minidrone.Left (m : Minidrone) (val : Int) : Minidrone :=
  { m with Pcmd := { m.Pcmd with Flag := 1, Roll := validatePitch val * (-1) } }

/-- `Clockwise`: sets `Flag = 1` and `Yaw = validatePitch(val)`. -/
def Minidrone.Clockwise (m : Minidrone) (val : Int) : Minidrone :=
  { m with Pcmd := { m.Pcmd with Flag := 1, Yaw := validatePitch val } }

/-- `CounterClockwise`: sets `Flag = 1` and `Yaw = validatePitch(val) * -1`. -/
def Minidrone.CounterClockwise (m : Minidrone) (val : Int) : Minidrone :=
  { m with Pcmd := { m.Pcmd with Flag := 1, Yaw := validatePitch val * (-1) } }

/-- `Hover`: resets the whole motion vector to the literal zero record. -/
def Minidrone.Hover (m : Minidrone) : Minidrone :=
  { m with Pcmd :=
    { Flag := 0, Roll := 0, Pitch := 0, Yaw := 0, Gaz := 0, PsiBits := 0 } }

/-- `generatePcmd` (src/unnamed/part_002 lines 471-494): increments
`stepsfa0a` and serializes the motion vector into `pcmddata`.  The source
line 487 is `binary.LittleEndian.PutUint32(m.buf[11:], math.Float32bits(m.Pcmd.Psi))`:
the four little-endian bytes of the heading go into `m.buf`, indices 11-14,
while `pcmddata` indices 11-14 are left untouched. -/
def Minidrone.generatePcmd (m : Minidrone) : Minidrone :=
  let a := inc16 m.stepsfa0a
  let p := m.Pcmd
  let d := ((((((((((m.pcmddata.set 0 0x02).set 1 (a % 256)).set 2
      0x02).set 3 0x00).set 4 0x02).set 5 0x00).set 6
      (toByte p.Flag)).set 7 (toByte p.Roll)).set 8
      (toByte p.Pitch)).set 9 (toByte p.Yaw)).set 10 (toByte p.Gaz)
  let b := (((m.buf.set 11 (p.PsiBits % 256)).set 12
      (p.PsiBits / 256 % 256)).set 13 (p.PsiBits / 65536 % 256)).set 14
      (p.PsiBits / 16777216 % 256)
  let d := (((d.set 15 0x00).set 16 0x00).set 17 0x00).set 18 0x00
  { m with stepsfa0a := a, pcmddata := d, buf := b }

/-- `processFlightStatus` (src/unnamed/part_002 lines 496-564).  Returns
`none` when the Go code would panic with an index out of range, otherwise
`some` of the updated state together with the list of
`pilotingStateHandler(state, substate)` invocations performed. -/
def Minidrone.processFlightStatus (m : Minidrone) (data : List Nat) :
    Option (Minidrone × List (Nat × Nat)) :=
  if data.length < 5 then
    -- ignore, just a sync
    some (m, [])
  else
    match data[4]? with
    | none => none
    | some b4 =>
      if b4 = 0 then
        -- PilotingStateFlatTrimChanged
        some (m, if m.hasHandler then [(b4, 0)] else [])
      else if b4 = 1 then
        -- PilotingStateFlyingStateChanged: reads data[6]
        match data[6]? with
        | none => none
        | some b6 =>
          let m2 :=
            if b6 = 0 then { m with Flying := false }
            else if b6 = 2 then { m with Flying := true }
            else if b6 = 3 then { m with Flying := true }
            else m
          some (m2, if m.hasHandler then [(b4, b6)] else [])
      else
        some (m, [])

/-- One encode on the discrete-command (fa0b) channel: the six operations of
the driver that write on `commandCharacteristic`. -/
inductive CmdOp where
  | takeOff : CmdOp
  | land : CmdOp
  | flatTrim : CmdOp
  | emergency : CmdOp
  | allStates : CmdOp
  | anim : Int → CmdOp
deriving DecidableEq

/-- Dispatch one discrete-command encode to the corresponding driver
operation. -/
def cmdStep (m : Minidrone) : CmdOp → Minidrone × List Nat
  | .takeOff => m.TakeOff
  | .land => m.Land
  | .flatTrim => m.FlatTrim
  | .emergency => m.Emergency
  | .allStates => m.GenerateAllStates
  | .anim n => m.generateAnimation n

/-- Run a sequence of discrete-command encodes, collecting the frames in
order. -/
def runCmds (m : Minidrone) : List CmdOp → Minidrone × List (List Nat)
  | [] => (m, [])
  | op :: rest =>
    let r := cmdStep m op
    let s := runCmds r.1 rest
    (s.1, r.2 :: s.2)

/-- Run `n` consecutive `generatePcmd` ticks, collecting the `pcmddata`
frame transmitted after each tick. -/
def runPcmdFrames (m : Minidrone) : Nat → Minidrone × List (List Nat)
  | 0 => (m, [])
  | n + 1 =>
    let m2 := m.generatePcmd
    let s := runPcmdFrames m2 n
    (s.1, m2.pcmddata :: s.2)

/-- The piloting-command loop of `StartPcmd` (src/unnamed/part_002 lines
298-317), driven by one `(signal, writeOk)` pair per tick: `signal` is
whether the non-blocking read of `m.shutdown` at the top of the tick
observes the shutdown signal, and `writeOk` is the outcome of this tick's
`WriteWithoutResponse` (`false` meaning the write returned an error, which
the loop only prints).  Returns the final driver state and whether the loop
has exited. -/
def runLoop (m : Minidrone) : List (Bool × Bool) → Minidrone × Bool
  | [] => (m, false)
  | t :: rest =>
    if t.1 then (m, true)
    else runLoop m.generatePcmd rest

/-- State of the rendezvous on the unbuffered `shutdown` channel:
`loopRunning` is whether the `StartPcmd` goroutine is still in its loop, and
`sendWaiting` is whether a `Halt` caller is currently blocked in
`m.shutdown <- true`. -/
structure HaltSys where
  loopRunning : Bool
  sendWaiting : Bool
deriving DecidableEq

/-- Transitions of the shutdown rendezvous, from the source: the goroutine
polls the channel at the top of each tick (`select` with `default`); when a
sender is blocked the receive matches it and the goroutine returns
(`consume`); otherwise the tick runs the default branch and the loop
continues (`tick`).  No other part of the program receives from
`m.shutdown`, so a blocked sender can only be released by `consume`. -/
inductive haltStep : HaltSys → HaltSys → Prop
  | consume (st : HaltSys) (hr : st.loopRunning = true)
      (hw : st.sendWaiting = true) :
      haltStep st { loopRunning := false, sendWaiting := false }
  | tick (st : HaltSys) (hr : st.loopRunning = true)
      (hw : st.sendWaiting = false) :
      haltStep st st

/-- Follows the spec's words: decoding bytes 11-14 of a transmitted frame as
a little-endian 32-bit value recovers the IEEE-754 bit pattern of the
heading. -/
def specDecodeHeadingBits (frame : List Nat) : Nat :=
  frame.getD 11 0 + 256 * frame.getD 12 0 + 65536 * frame.getD 13 0 +
    16777216 * frame.getD 14 0

/-- Follows the spec's words: `clamp(m, 0, 100)` — values above 100 clamp to
100, values below 0 clamp to 0. -/
def specClamp (v : Int) : Int := max 0 (min v 100)

theorem validatePitch_eq_specClamp (val : Int) :
    validatePitch val = specClamp val := by
  unfold validatePitch specClamp
  rcases le_total val 0 with h | h <;> rcases le_total val 100 with h2 | h2 <;>
    simp [max_def, min_def] <;> split_ifs <;> omega

theorem inc16_mod256 (n : Nat) : inc16 n % 256 = (n + 1) % 256 := by
  unfold inc16
  omega

set_option maxRecDepth 4000 in
/-- C1: the piloting-command frame produced by a `generatePcmd` tick is 19
bytes, but its bytes 11-14 do NOT hold the Psi heading: at the failing input
(fresh driver state with `Psi = 1.0`, bit pattern 0x3F800000) the frame's
bytes 11-14 stay 0x00 — the four little-endian heading bytes are written
into the notification read buffer `buf` instead — so decoding bytes 11-14
of the transmitted frame yields 0, not the heading. -/
theorem generatePcmd_heading_bytes_stale :
    (Minidrone.generatePcmd
        { NewMinidrone with
          Pcmd := { Pcmd.zero with PsiBits := 0x3F800000 } }).pcmddata.length
        = 19 ∧
    ((Minidrone.generatePcmd
        { NewMinidrone with
          Pcmd := { Pcmd.zero with PsiBits := 0x3F800000 } }).pcmddata.drop
        11).take 4 = [0x00, 0x00, 0x00, 0x00] ∧
    specDecodeHeadingBits
        (Minidrone.generatePcmd
          { NewMinidrone with
            Pcmd := { Pcmd.zero with PsiBits := 0x3F800000 } }).pcmddata
        ≠ 0x3F800000 ∧
    ((Minidrone.generatePcmd
        { NewMinidrone with
          Pcmd := { Pcmd.zero with PsiBits := 0x3F800000 } }).buf.drop
        11).take 4 = [0x00, 0x00, 0x80, 0x3F] := by
  refine ⟨by decide, by decide, by decide, by decide⟩

set_option maxRecDepth 4000 in
/-- C10: `processFlightStatus` does read beyond the end of the buffer for a
`FlyingStateChanged` notification shorter than 7 bytes: on the length-5
frame `[0,0,0,0,1]` (and the length-6 frame `[0,0,0,0,1,0]`) the Go code
evaluates `data[6]`, an index out of range (modelled as `none`), while a
7-byte frame is handled in bounds. -/
theorem processFlightStatus_short_flying_frame_oob :
    NewMinidrone.processFlightStatus [0, 0, 0, 0, 1] = none ∧
    NewMinidrone.processFlightStatus [0, 0, 0, 0, 1, 0] = none ∧
    NewMinidrone.processFlightStatus [0, 0, 0, 0, 1, 0, 0]
      = some (NewMinidrone, []) := by
  refine ⟨by decide, by decide, by decide⟩

/-- C8: an inbound notification frame shorter than 5 bytes is ignored: the
decoder returns without error, leaves the whole driver state unchanged, and
performs no observer invocation. -/
theorem short_frames_ignored (m : Minidrone) (data : List Nat)
    (h : data.length < 5) :
    m.processFlightStatus data = some (m, []) := by
  unfold Minidrone.processFlightStatus
  simp [h]

theorem short_frames_ignored_witness :
    NewMinidrone.processFlightStatus [1, 2, 3, 4] = some (NewMinidrone, []) :=
  short_frames_ignored NewMinidrone [1, 2, 3, 4] (by decide)

/-- C6: from any prior motion-vector state, `Hover` resets the whole motion
vector to the zero record (`Flag`, `Roll`, `Pitch`, `Yaw`, `Gaz` and `Psi`
all 0), and it is the only movement operation that clears all axes
simultaneously: each directional command always leaves `Flag = 1`, hence
never the zero vector. -/
theorem hover_resets_motion_vector (m : Minidrone) (val : Int) :
    m.Hover = { m with Pcmd := Pcmd.zero } ∧
    (m.Up val).Pcmd ≠ Pcmd.zero ∧
    (m.Down val).Pcmd ≠ Pcmd.zero ∧
    (m.Forward val).Pcmd ≠ Pcmd.zero ∧
    (m.Backward val).Pcmd ≠ Pcmd.zero ∧
    (m.Right val).Pcmd ≠ Pcmd.zero ∧
    (m.Left val).Pcmd ≠ Pcmd.zero ∧
    (m.Clockwise val).Pcmd ≠ Pcmd.zero ∧
    (m.CounterClockwise val).Pcmd ≠ Pcmd.zero := by
  refine ⟨rfl, ?_, ?_, ?_, ?_, ?_, ?_, ?_, ?_⟩ <;>
    simp [Minidrone.Up, Minidrone.Down, Minidrone.Forward, Minidrone.Backward,
      Minidrone.Right, Minidrone.Left, Minidrone.Clockwise,
      Minidrone.CounterClockwise, Pcmd.zero]

/-- C3: each directional command sets `Flag` to 1 and exactly its own axis
to `clamp(val,0,100)` (positive direction) or `-clamp(val,0,100)` (opposite
direction), leaving every other axis and the heading unchanged; the source
clamp `validatePitch` agrees with the spec's `clamp(·,0,100)` on every
integer, so out-of-range magnitudes are clamped, never rejected. -/
theorem directional_commands_clamp (m : Minidrone) (val : Int) :
    m.Up val = { m with Pcmd := { m.Pcmd with Flag := 1, Gaz := specClamp val } } ∧
    m.Down val = { m with Pcmd := { m.Pcmd with Flag := 1, Gaz := -specClamp val } } ∧
    m.Forward val = { m with Pcmd := { m.Pcmd with Flag := 1, Pitch := specClamp val } } ∧
    m.Backward val = { m with Pcmd := { m.Pcmd with Flag := 1, Pitch := -specClamp val } } ∧
    m.Right val = { m with Pcmd := { m.Pcmd with Flag := 1, Roll := specClamp val } } ∧
    m.Left val = { m with Pcmd := { m.Pcmd with Flag := 1, Roll := -specClamp val } } ∧
    m.Clockwise val = { m with Pcmd := { m.Pcmd with Flag := 1, Yaw := specClamp val } } ∧
    m.CounterClockwise val =
      { m with Pcmd := { m.Pcmd with Flag := 1, Yaw := -specClamp val } } ∧
    validatePitch val = specClamp val := by
  refine ⟨?_, ?_, ?_, ?_, ?_, ?_, ?_, ?_, validatePitch_eq_specClamp val⟩ <;>
    simp [Minidrone.Up, Minidrone.Down, Minidrone.Forward, Minidrone.Backward,
      Minidrone.Right, Minidrone.Left, Minidrone.Clockwise,
      Minidrone.CounterClockwise, validatePitch_eq_specClamp, mul_neg_one]

theorem dateStringBytes :
    "2014-10-28".data.map Char.toNat
      = [0x32, 0x30, 0x31, 0x34, 0x2D, 0x31, 0x30, 0x2D, 0x32, 0x38] := by
  decide

/-- C7: the discrete command encoders emit their fixed layouts byte for
byte: TakeOff/Land/FlatTrim/Emergency emit
`[0x02, seq, 0x02, 0x00, commandID, 0x00]` with command ids 0x01, 0x03,
0x00 and 0x04; the settings/date frame is
`[0x04, seq, 0x00, 0x04, 0x01, 0x00, "2014-10-28" in UTF-8, 0x00]`; each
flip emits `[0x02, seq, 0x02, 0x04, 0x00, 0x00, animationID, 0x00, 0x00,
0x00]` with animation ids front=0, back=1, right=2, left=3. -/
theorem discrete_frame_layouts (m : Minidrone) :
    (m.TakeOff).2 = [0x02, (m.stepsfa0b + 1) % 256, 0x02, 0x00, 0x01, 0x00] ∧
    (m.Land).2 = [0x02, (m.stepsfa0b + 1) % 256, 0x02, 0x00, 0x03, 0x00] ∧
    (m.FlatTrim).2 = [0x02, (m.stepsfa0b + 1) % 256, 0x02, 0x00, 0x00, 0x00] ∧
    (m.Emergency).2 = [0x02, (m.stepsfa0b + 1) % 256, 0x02, 0x00, 0x04, 0x00] ∧
    (m.GenerateAllStates).2 =
      [0x04, (m.stepsfa0b + 1) % 256, 0x00, 0x04, 0x01, 0x00] ++
        "2014-10-28".data.map Char.toNat ++ [0x00] ∧
    (m.FrontFlip).2 =
      [0x02, (m.stepsfa0b + 1) % 256, 0x02, 0x04, 0x00, 0x00, 0, 0x00, 0x00, 0x00] ∧
    (m.BackFlip).2 =
      [0x02, (m.stepsfa0b + 1) % 256, 0x02, 0x04, 0x00, 0x00, 1, 0x00, 0x00, 0x00] ∧
    (m.RightFlip).2 =
      [0x02, (m.stepsfa0b + 1) % 256, 0x02, 0x04, 0x00, 0x00, 2, 0x00, 0x00, 0x00] ∧
    (m.LeftFlip).2 =
      [0x02, (m.stepsfa0b + 1) % 256, 0x02, 0x04, 0x00, 0x00, 3, 0x00, 0x00, 0x00] := by
  refine ⟨?_, ?_, ?_, ?_, ?_, ?_, ?_, ?_, ?_⟩ <;>
    simp [Minidrone.TakeOff, Minidrone.Land, Minidrone.FlatTrim,
      Minidrone.Emergency, Minidrone.GenerateAllStates, Minidrone.FrontFlip,
      Minidrone.BackFlip, Minidrone.RightFlip, Minidrone.LeftFlip,
      Minidrone.generateAnimation, dateStringBytes, inc16_mod256, toByte]

/-- C9: in the piloting-command loop, a failed transport write never
terminates the loop: over any run of ticks in which the shutdown signal is
never observed the loop is still running afterwards, whatever each tick's
write outcome was, having performed one `generatePcmd` per tick; and as
soon as the shutdown signal is observed at the top of a tick the loop exits
with no further tick work. -/
theorem pcmd_loop_survives_write_failure (m : Minidrone) (ws : List Bool)
    (w : Bool) (post : List (Bool × Bool)) :
    runLoop m (ws.map fun x => (false, x)) =
      (Minidrone.generatePcmd^[ws.length] m, false) ∧
    runLoop m ((ws.map fun x => (false, x)) ++ (true, w) :: post) =
      (Minidrone.generatePcmd^[ws.length] m, true) := by
  induction ws generalizing m with
  | nil => simp [runLoop]
  | cons x rest ih =>
    obtain ⟨ih1, ih2⟩ := ih m.generatePcmd
    refine ⟨?_, ?_⟩ <;>
      simp [runLoop, ih1, ih2, Function.iterate_succ_apply]

theorem cmdStep_facts (m : Minidrone) (op : CmdOp) :
    (cmdStep m op).1.stepsfa0b = inc16 m.stepsfa0b ∧
    (cmdStep m op).1.stepsfa0a = m.stepsfa0a ∧
    (cmdStep m op).2[1]? = some (inc16 m.stepsfa0b % 256) := by
  cases op <;>
    simp [cmdStep, Minidrone.TakeOff, Minidrone.Land, Minidrone.FlatTrim,
      Minidrone.Emergency, Minidrone.GenerateAllStates,
      Minidrone.generateAnimation]

theorem runCmds_facts (ops : List CmdOp) (m : Minidrone) :
    (runCmds m ops).2.map (fun f => f[1]?)
        = (List.range ops.length).map
            (fun i => some ((m.stepsfa0b + i + 1) % 256)) ∧
    (runCmds m ops).1.stepsfa0a = m.stepsfa0a := by
  induction ops generalizing m with
  | nil => simp [runCmds]
  | cons op rest ih =>
    obtain ⟨hb, ha, hf⟩ := cmdStep_facts m op
    obtain ⟨ih1, ih2⟩ := ih (cmdStep m op).1
    constructor
    · simp only [runCmds, List.map_cons, List.length_cons, hf, ih1, hb,
        List.range_succ_eq_map, List.map_map, List.cons.injEq]
      constructor
      · rw [inc16_mod256]
      · refine List.map_congr_left ?_
        intro i hi
        simp only [Function.comp_apply, inc16]
        congr 1
        omega
    · simp only [runCmds, ih2, ha]

theorem generatePcmd_facts (m : Minidrone) (h : m.pcmddata.length = 19) :
    (m.generatePcmd).pcmddata.length = 19 ∧
    (m.generatePcmd).stepsfa0a = inc16 m.stepsfa0a ∧
    (m.generatePcmd).stepsfa0b = m.stepsfa0b ∧
    (m.generatePcmd).pcmddata[1]? = some (inc16 m.stepsfa0a % 256) := by
  refine ⟨?_, rfl, rfl, ?_⟩
  · simp [Minidrone.generatePcmd, h]
  · simp [Minidrone.generatePcmd, List.getElem?_set, h]

theorem runPcmdFrames_succ (m : Minidrone) (k : Nat) :
    runPcmdFrames m (k + 1)
      = ((runPcmdFrames m.generatePcmd k).1,
         m.generatePcmd.pcmddata :: (runPcmdFrames m.generatePcmd k).2) :=
  rfl

set_option maxHeartbeats 1000000 in
theorem runPcmdFrames_facts (n : Nat) (m : Minidrone)
    (h : m.pcmddata.length = 19) :
    (runPcmdFrames m n).2.map (fun f => f[1]?)
        = (List.range n).map (fun i => some ((m.stepsfa0a + i + 1) % 256)) ∧
    (runPcmdFrames m n).1.stepsfa0b = m.stepsfa0b := by
  induction n generalizing m with
  | zero => simp [runPcmdFrames]
  | succ k ih =>
    obtain ⟨hl, ha, hb, hf⟩ := generatePcmd_facts m h
    obtain ⟨ih1, ih2⟩ := ih m.generatePcmd hl
    rw [runPcmdFrames_succ]
    dsimp only
    constructor
    · rw [List.map_cons, hf, ih1, ha, List.range_succ_eq_map, List.map_cons,
        List.map_map]
      congr 1
      · simp only [Option.some.injEq, inc16]
        omega
      · refine List.map_congr_left ?_
        intro i hi
        simp only [Function.comp_apply, Option.some.injEq, inc16]
        omega
    · rw [ih2, hb]

/-- C2: on each channel, N consecutive frame encodes starting from counter
state `m` produce frames whose sequence bytes are `(seq0+1) % 256,
(seq0+2) % 256, …` in order (so no duplicates and no gaps within a mod-256
window, wrapping from 255 to 0), where the discrete-command channel covers
TakeOff/Land/FlatTrim/Emergency/generateAnimation/GenerateAllStates and the
piloting-command channel covers `generatePcmd`; and no sequence of encodes
on one channel changes the other channel's counter. -/
theorem sequence_counters_independent (m : Minidrone) (ops : List CmdOp)
    (n : Nat) (h : m.pcmddata.length = 19) :
    (runCmds m ops).2.map (fun f => f[1]?)
        = (List.range ops.length).map
            (fun i => some ((m.stepsfa0b + i + 1) % 256)) ∧
    (runCmds m ops).1.stepsfa0a = m.stepsfa0a ∧
    (runPcmdFrames m n).2.map (fun f => f[1]?)
        = (List.range n).map (fun i => some ((m.stepsfa0a + i + 1) % 256)) ∧
    (runPcmdFrames m n).1.stepsfa0b = m.stepsfa0b :=
  ⟨(runCmds_facts ops m).1, (runCmds_facts ops m).2,
   (runPcmdFrames_facts n m h).1, (runPcmdFrames_facts n m h).2⟩

theorem sequence_counters_independent_witness :
    (runCmds NewMinidrone [CmdOp.takeOff, CmdOp.land]).2.map (fun f => f[1]?)
        = (List.range 2).map
            (fun i => some ((NewMinidrone.stepsfa0b + i + 1) % 256)) ∧
    (runCmds NewMinidrone [CmdOp.takeOff, CmdOp.land]).1.stepsfa0a
        = NewMinidrone.stepsfa0a ∧
    (runPcmdFrames NewMinidrone 2).2.map (fun f => f[1]?)
        = (List.range 2).map
            (fun i => some ((NewMinidrone.stepsfa0a + i + 1) % 256)) ∧
    (runPcmdFrames NewMinidrone 2).1.stepsfa0b = NewMinidrone.stepsfa0b :=
  sequence_counters_independent NewMinidrone [CmdOp.takeOff, CmdOp.land] 2
    (by decide)

/-- C4: for every `FlyingStateChanged` notification (byte 4 = 1) carrying a
sub-state at byte 6, the `Flying` boolean is updated from any prior value:
Landed (0) forces it false, Hovering (2) or Flying (3) force it true, and
TakingOff (1), Landing (4), Emergency (5) or Rolling (6) leave it exactly
as it was; the registered observer is invoked exactly once with
`(1, substate)`; and a second consecutive Landed notification again yields
`Flying = false` with no error. -/
theorem processFlightStatus_flying_update (m : Minidrone) (data : List Nat)
    (b6 : Nat) (h5 : 5 ≤ data.length) (h4 : data[4]? = some 1)
    (h6 : data[6]? = some b6) :
    m.processFlightStatus data =
      some ({ m with Flying :=
                if b6 = 0 then false
                else if b6 = 2 ∨ b6 = 3 then true
                else m.Flying },
            if m.hasHandler then [(1, b6)] else []) ∧
    (b6 = 0 →
      Minidrone.processFlightStatus { m with Flying := false } data =
        some ({ m with Flying := false },
              if m.hasHandler then [(1, 0)] else [])) := by
  have hlt : ¬ data.length < 5 := by omega
  constructor
  · simp only [Minidrone.processFlightStatus, hlt, if_false, h4, h6]
    by_cases hb0 : b6 = 0
    · subst hb0
      simp
    · by_cases hb2 : b6 = 2
      · subst hb2
        simp
      · by_cases hb3 : b6 = 3
        · subst hb3
          simp
        · simp [hb0, hb2, hb3]
  · intro hb0
    subst hb0
    simp only [Minidrone.processFlightStatus, hlt, if_false, h4, h6]
    simp

theorem processFlightStatus_flying_update_witness :
    Minidrone.processFlightStatus { NewMinidrone with hasHandler := true }
        [0, 0, 0, 0, 1, 0, 2] =
      some ({ { NewMinidrone with hasHandler := true } with Flying := true },
            [(1, 2)]) := by
  have h := processFlightStatus_flying_update
    { NewMinidrone with hasHandler := true } [0, 0, 0, 0, 1, 0, 2] 2
    (by decide) (by decide) (by decide)
  simpa using h.1

/-- C5: the shutdown rendezvous is one-shot and the code deadlocks on a
repeated signal: while the piloting-command loop is running, a blocked
`Halt` sender is consumed and the loop exits; but once the loop has
stopped, no reachable transition ever releases a second blocked sender —
`Halt` called a second time blocks forever on `m.shutdown <- true`,
contradicting the claim that a repeated signal must be tolerated without
the caller blocking indefinitely. -/
theorem halt_second_signal_never_consumed :
    haltStep { loopRunning := true, sendWaiting := true }
      { loopRunning := false, sendWaiting := false } ∧
    ∀ st : HaltSys,
      Relation.ReflTransGen haltStep
          { loopRunning := false, sendWaiting := true } st →
        st = { loopRunning := false, sendWaiting := true } := by
  constructor
  · exact haltStep.consume _ rfl rfl
  · intro st h
    induction h with
    | refl => rfl
    | tail hab hbc ih =>
      subst ih
      cases hbc with
      | consume hr hw => simp at hr
      | tick hr hw => simp at hr

theorem halt_second_signal_never_consumed_witness :
    ({ loopRunning := false, sendWaiting := true } : HaltSys)
      = { loopRunning := false, sendWaiting := true } :=
  halt_second_signal_never_consumed.2
    { loopRunning := false, sendWaiting := true } Relation.ReflTransGen.refl

theorem directional_commands_clamp_witness :
    NewMinidrone.Up 150 =
      { NewMinidrone with
        Pcmd := { NewMinidrone.Pcmd with Flag := 1, Gaz := specClamp 150 } } ∧
    validatePitch 150 = specClamp 150 :=
  ⟨(directional_commands_clamp NewMinidrone 150).1,
   (directional_commands_clamp NewMinidrone 150).2.2.2.2.2.2.2.2⟩

theorem hover_resets_motion_vector_witness :
    (NewMinidrone.Up 50).Hover
      = { NewMinidrone.Up 50 with Pcmd := Pcmd.zero } :=
  (hover_resets_motion_vector (NewMinidrone.Up 50) 50).1

theorem discrete_frame_layouts_witness :
    (NewMinidrone.TakeOff).2
      = [0x02, (NewMinidrone.stepsfa0b + 1) % 256, 0x02, 0x00, 0x01, 0x00] :=
  (discrete_frame_layouts NewMinidrone).1

theorem pcmd_loop_survives_write_failure_witness :
    runLoop NewMinidrone ([false].map fun x => (false, x)) =
      (Minidrone.generatePcmd^[List.length [false]] NewMinidrone, false) ∧
    runLoop NewMinidrone
        (([false].map fun x => (false, x)) ++ (true, true) :: []) =
      (Minidrone.generatePcmd^[List.length [false]] NewMinidrone, true) :=
  pcmd_loop_survives_write_failure NewMinidrone [false] true []
